import Mathlib

/-!
Shallow embedding of the two PyInstaller helper scripts of this repository:
`src/pyinstaller-hooks/hook-gallery_dl.py` (the build-time manifest declarator
binding `hiddenimports` and `datas`) and
`src/pyinstaller-hooks/rthook-gallery-dl.py` (the runtime preload shim
`_preload_extractor`).

External collaborators (`pkgutil.get_data`, `os.makedirs`, `open`,
`importlib.util.spec_from_file_location`, PyInstaller's `collect_submodules`
and `collect_data_files`) are modelled from their documented behaviour; the
repository code itself is translated line by line.
-/

namespace GalleryDL

/-- Raw byte content of a file or bundled resource, one Nat per byte. -/
abbrev Bytes := List Nat

/-- Association lookup, first match wins (a dict probe). -/
def lookupS {κ α : Type} [DecidableEq κ] : List (κ × α) → κ → Option α
  | [], _ => none
  | (k, v) :: rest, key => if k = key then some v else lookupS rest key

/-- Overwriting insert into an association list (dict assignment, as in a
filesystem write to a path or `sys.modules[name] = module`). -/
def setEntry {κ α : Type} [DecidableEq κ] (m : List (κ × α)) (key : κ) (v : α) :
    List (κ × α) :=
  (key, v) :: m.filter (fun e => e.1 ≠ key)

theorem lookupS_setEntry {κ α : Type} [DecidableEq κ] (m : List (κ × α))
    (k : κ) (v : α) : lookupS (setEntry m k v) k = some v := by
  simp [lookupS, setEntry]

theorem setEntry_setEntry {κ α : Type} [DecidableEq κ] (m : List (κ × α))
    (k : κ) (v w : α) : setEntry (setEntry m k v) k w = setEntry m k w := by
  simp [setEntry, List.filter_filter]

theorem lookupS_filter_ne {κ α : Type} [DecidableEq κ] (m : List (κ × α))
    (k k' : κ) (h : k ≠ k') :
    lookupS (m.filter (fun e => e.1 ≠ k)) k' = lookupS m k' := by
  induction m with
  | nil => simp
  | cons e rest ih =>
    simp only [decide_not] at ih
    by_cases he : e.1 = k
    · have hne : e.1 ≠ k' := he ▸ h
      simp [List.filter_cons, he, lookupS, hne, ih, h]
    · by_cases he' : e.1 = k'
      · simp [List.filter_cons, he, lookupS, he', Ne.symm h]
      · simp [List.filter_cons, he, lookupS, he', ih]

theorem lookupS_setEntry_ne {κ α : Type} [DecidableEq κ] (m : List (κ × α))
    (k k' : κ) (v : α) (h : k ≠ k') :
    lookupS (setEntry m k v) k' = lookupS m k' := by
  have h2 := lookupS_filter_ne m k k' h
  simp only [decide_not] at h2
  simp [setEntry, lookupS, h, h2]

/-- Module specification as produced by `importlib.util.spec_from_file_location`:
name, origin path, and optional loader (a file loader is modelled by the path
it reads the source from). -/
structure ModuleSpec where
  name : String
  origin : String
  loader : Option String
deriving DecidableEq, Repr

/-- A Python module object as far as the shim observes it: its dotted name and
the source bytes executed into it. -/
structure PyModule where
  name : String
  source : Bytes
deriving DecidableEq, Repr

/-- Process state touched by the runtime shim: the filesystem (path to content)
and the `sys.modules` registry (dotted name to module object). -/
structure PState where
  fs : List (String × Bytes)
  modules : List (String × PyModule)
deriving DecidableEq, Repr

/-- Exceptions the shim body can raise: OSError from either `os.makedirs`
call, OSError from `open`/`write`, the AttributeError raised by
`module_from_spec` when the spec is None, the AssertionError from
`assert spec.loader is not None`, and any error raised while executing the
module source. -/
inductive ShimError where
  | makedirsFailed : String → ShimError
  | writeFailed : String → ShimError
  | moduleFromSpecFailed : ShimError
  | assertionFailed : ShimError
  | execFailed : String → ShimError
deriving DecidableEq, Repr

/-- Environment the shim runs against: the frozen bundle resource store read by
`pkgutil.get_data` (package name and relative path to optional bytes), the temp
directory root from `tempfile.gettempdir()`, and oracles recording whether each
environment-dependent step (directory creation at a path, file write at a path,
executing given source bytes) succeeds. -/
structure Env where
  getData : String → String → Option Bytes
  tempdir : String
  makedirsOk : String → Bool
  writeOk : String → Bool
  execOk : Bytes → Bool

/-- Model of `os.path.join` for POSIX paths as used by the shim: an absolute
second component wins, otherwise a single separator is inserted unless one is
already present or the first component is empty. -/
def path_join (a b : String) : String :=
  if b.data.head? = some '/' then b
  else if a = "" ∨ a.data.getLast? = some '/' then a ++ b
  else a ++ "/" ++ b

/-- Model of `os.path.dirname`: everything before the last slash, empty when
there is no slash (the corner case of a directory part consisting only of
slashes is not modelled; it never arises for the paths the shim builds). -/
def dirname (p : String) : String :=
  String.mk (((p.data.reverse.dropWhile (fun c => c ≠ '/')).drop 1).reverse)

/-- Model of `importlib.util.spec_from_file_location` called with no explicit
loader: CPython scans the registered file loaders for a matching filename
suffix and returns None when none matches; the source file loader handles the
".py" suffix, the one relevant to this shim. -/
def spec_from_file_location (modname path : String) : Option ModuleSpec :=
  if ".py".data.isSuffixOf path.data then some ⟨modname, path, some path⟩ else none

/-- The local variable tmpdir of the shim:
`os.path.join(tempfile.gettempdir(), 'gallery_dl_pyinst_extractors')`. -/
def shimTmpdir (env : Env) : String :=
  path_join env.tempdir "gallery_dl_pyinst_extractors"

/-- The local variable dst of the shim: `os.path.join(tmpdir, relpath)`. -/
def shimDst (env : Env) (relpath : String) : String :=
  path_join (shimTmpdir env) relpath

/-- Shallow embedding of `_preload_extractor` (rthook-gallery-dl.py, lines
5-19). Fetch the resource bytes; a falsy result (None or empty bytes) returns
immediately. Otherwise create the temp directory, write the bytes to the
destination path, build a spec from the file location, assert its loader,
execute the file content into a module object and register it in
`sys.modules`. The returned pair is the final process state together with the
exception, if any, that propagated out of the body. -/
def _preload_extractor (env : Env) (st : PState) (modname relpath : String) :
    PState × Option ShimError :=
  match env.getData "gallery_dl.extractor" relpath with
  | none => (st, none)
  | some data =>
    if data.isEmpty then (st, none)
    else if env.makedirsOk (shimTmpdir env) then
      if env.makedirsOk (dirname (shimDst env relpath)) then
        if env.writeOk (shimDst env relpath) then
          match spec_from_file_location modname (shimDst env relpath) with
          | none =>
            ({ st with fs := setEntry st.fs (shimDst env relpath) data },
             some ShimError.moduleFromSpecFailed)
          | some spec =>
            match spec.loader with
            | none =>
              ({ st with fs := setEntry st.fs (shimDst env relpath) data },
               some ShimError.assertionFailed)
            | some loaderPath =>
              if env.execOk
                  ((lookupS (setEntry st.fs (shimDst env relpath) data)
                    loaderPath).getD []) then
                ({ fs := setEntry st.fs (shimDst env relpath) data,
                   modules := setEntry st.modules modname
                     ⟨modname,
                      (lookupS (setEntry st.fs (shimDst env relpath) data)
                        loaderPath).getD []⟩ },
                 none)
              else
                ({ st with fs := setEntry st.fs (shimDst env relpath) data },
                 some (ShimError.execFailed (shimDst env relpath)))
        else (st, some (ShimError.writeFailed (shimDst env relpath)))
      else (st, some (ShimError.makedirsFailed (dirname (shimDst env relpath))))
    else (st, some (ShimError.makedirsFailed (shimTmpdir env)))

/-- Top-level invocation performed at line 22 of rthook-gallery-dl.py. -/
def rthook_run (env : Env) (st : PState) : PState × Option ShimError :=
  _preload_extractor env st "gallery_dl.extractor.2ch" "2ch.py"

theorem isSuffixOf_path_join (a b : String)
    (h : ".py".data.isSuffixOf b.data = true) :
    ".py".data.isSuffixOf (path_join a b).data = true := by
  rw [List.isSuffixOf_iff_suffix] at h ⊢
  unfold path_join
  split
  · exact h
  · split
    · rw [String.data_append]
      exact h.trans (List.suffix_append _ _)
    · rw [String.data_append]
      exact h.trans (List.suffix_append _ _)

theorem spec_from_file_location_py (modname path : String)
    (h : ".py".data.isSuffixOf path.data = true) :
    spec_from_file_location modname path = some ⟨modname, path, some path⟩ := by
  simp [spec_from_file_location, h]

/-- Helper: the full case analysis of one shim run, phrased on an equation so
that it can be shared by several results: whenever the run reports an
exception, the module registry of the final state is the initial one. -/
theorem preload_cases (env : Env) (st : PState) (modname relpath : String)
    (r : PState × Option ShimError)
    (hr : _preload_extractor env st modname relpath = r) :
    r.1.modules = st.modules ∨ r.2 = none := by
  unfold _preload_extractor at hr
  split at hr
  · subst hr; exact Or.inr rfl
  · split at hr
    · subst hr; exact Or.inr rfl
    · split at hr
      · split at hr
        · split at hr
          · split at hr
            · subst hr; exact Or.inl rfl
            · split at hr
              · subst hr; exact Or.inl rfl
              · split at hr
                · subst hr; exact Or.inr rfl
                · subst hr; exact Or.inl rfl
          · subst hr; exact Or.inl rfl
        · subst hr; exact Or.inl rfl
      · subst hr; exact Or.inl rfl

/-- Helper: with a ".py" relative path the spec construction always yields a
spec carrying a loader, so neither the None-spec error nor the assertion
error can be the reported exception. -/
theorem preload_pyspec_cases (env : Env) (st : PState) (modname relpath : String)
    (r : PState × Option ShimError)
    (hr : _preload_extractor env st modname relpath = r)
    (hpy : ".py".data.isSuffixOf relpath.data = true) :
    r.2 ≠ some ShimError.moduleFromSpecFailed ∧
    r.2 ≠ some ShimError.assertionFailed := by
  have hdst : spec_from_file_location modname (shimDst env relpath) =
      some ⟨modname, shimDst env relpath, some (shimDst env relpath)⟩ :=
    spec_from_file_location_py _ _ (isSuffixOf_path_join _ _ hpy)
  unfold _preload_extractor at hr
  split at hr
  · subst hr; exact ⟨by simp, by simp⟩
  · split at hr
    · subst hr; exact ⟨by simp, by simp⟩
    · split at hr
      · split at hr
        · split at hr
          · split at hr
            · rename_i hnone
              rw [hdst] at hnone
              cases hnone
            · rename_i spec hsome
              rw [hdst] at hsome
              cases hsome
              split at hr
              · rename_i hload
                simp at hload
              · subst hr
                constructor
                · split
                  · simp
                  · simp
                · split
                  · simp
                  · simp
          · subst hr; exact ⟨by simp, by simp⟩
        · subst hr; exact ⟨by simp, by simp⟩
      · subst hr; exact ⟨by simp, by simp⟩

/-- Helper: the result of a run in which the resource is found non-empty and
every environment-dependent step succeeds. -/
theorem preload_success_run (env : Env) (st : PState) (modname relpath : String)
    (data : Bytes)
    (hget : env.getData "gallery_dl.extractor" relpath = some data)
    (hne : data.isEmpty = false)
    (hpy : ".py".data.isSuffixOf relpath.data = true)
    (hmk : ∀ p, env.makedirsOk p = true)
    (hwr : ∀ p, env.writeOk p = true)
    (hex : ∀ b, env.execOk b = true) :
    _preload_extractor env st modname relpath =
      ({ fs := setEntry st.fs (shimDst env relpath) data,
         modules := setEntry st.modules modname ⟨modname, data⟩ }, none) := by
  have hspec : spec_from_file_location modname (shimDst env relpath) =
      some ⟨modname, shimDst env relpath, some (shimDst env relpath)⟩ :=
    spec_from_file_location_py _ _ (isSuffixOf_path_join _ _ hpy)
  simp [_preload_extractor, hget, hne, hmk, hwr, hex, hspec, lookupS_setEntry]

/-- Helper: re-running the shim from the state a first run produced yields the
same state and the same outcome, whichever branch the first run took. -/
theorem preload_step (env : Env) (st : PState) (modname relpath : String)
    (st1 : PState) (err : Option ShimError)
    (hr : _preload_extractor env st modname relpath = (st1, err)) :
    _preload_extractor env st1 modname relpath = (st1, err) := by
  unfold _preload_extractor at hr
  split at hr
  · rename_i hg
    injection hr with h1 h2
    subst h1; subst h2
    simp [_preload_extractor, hg]
  · rename_i data hg
    split at hr
    · rename_i hie
      injection hr with h1 h2
      subst h1; subst h2
      simp [_preload_extractor, hg, hie]
    · rename_i hie
      split at hr
      · rename_i hm1
        split at hr
        · rename_i hm2
          split at hr
          · rename_i hw
            split at hr
            · rename_i hspec
              injection hr with h1 h2
              subst h1; subst h2
              simp [_preload_extractor, hg, hie, hm1, hm2, hw, hspec,
                setEntry_setEntry]
            · rename_i spec hspec
              split at hr
              · rename_i hload
                injection hr with h1 h2
                subst h1; subst h2
                simp [_preload_extractor, hg, hie, hm1, hm2, hw, hspec, hload,
                  setEntry_setEntry]
              · rename_i loaderPath hload
                split at hr
                · rename_i hex
                  injection hr with h1 h2
                  subst h1; subst h2
                  simp [_preload_extractor, hg, hie, hm1, hm2, hw, hspec, hload,
                    hex, setEntry_setEntry]
                · rename_i hex
                  injection hr with h1 h2
                  subst h1; subst h2
                  simp [_preload_extractor, hg, hie, hm1, hm2, hw, hspec, hload,
                    hex, setEntry_setEntry]
          · rename_i hw
            injection hr with h1 h2
            subst h1; subst h2
            simp [_preload_extractor, hg, hie, hm1, hm2, hw]
        · rename_i hm2
          injection hr with h1 h2
          subst h1; subst h2
          simp [_preload_extractor, hg, hie, hm1, hm2]
      · rename_i hm1
        injection hr with h1 h2
        subst h1; subst h2
        simp [_preload_extractor, hg, hie, hm1]

/-- Empty initial process state: nothing on disk, nothing in sys.modules. -/
def st0 : PState := { fs := [], modules := [] }

/-- Environment of a bundle that carries the 2ch.py resource with non-empty
content, with all environment-dependent steps succeeding. -/
def okEnv : Env :=
  { getData := fun pkg rel =>
      if pkg = "gallery_dl.extractor" then
        if rel = "2ch.py" then some [104, 105] else none
      else none
    tempdir := "/tmp"
    makedirsOk := fun _ => true
    writeOk := fun _ => true
    execOk := fun _ => true }

/-- Environment of a bundle that does not carry the resource at all. -/
def noResEnv : Env :=
  { getData := fun _ _ => none
    tempdir := "/tmp"
    makedirsOk := fun _ => true
    writeOk := fun _ => true
    execOk := fun _ => true }

/-- Environment of a bundle whose 2ch.py resource exists but has zero bytes. -/
def emptyResEnv : Env :=
  { getData := fun pkg rel =>
      if pkg = "gallery_dl.extractor" then
        if rel = "2ch.py" then some [] else none
      else none
    tempdir := "/tmp"
    makedirsOk := fun _ => true
    writeOk := fun _ => true
    execOk := fun _ => true }

/-- Environment where the resource is present but every directory creation
fails (for instance the temp directory is not writable). -/
def mkdirFailEnv : Env :=
  { getData := fun pkg rel =>
      if pkg = "gallery_dl.extractor" then
        if rel = "2ch.py" then some [104] else none
      else none
    tempdir := "/tmp"
    makedirsOk := fun _ => false
    writeOk := fun _ => true
    execOk := fun _ => true }

/-- Environment where the resource is present but the file write fails
(for instance the disk is full). -/
def writeFailEnv : Env :=
  { getData := fun pkg rel =>
      if pkg = "gallery_dl.extractor" then
        if rel = "2ch.py" then some [104, 105] else none
      else none
    tempdir := "/tmp"
    makedirsOk := fun _ => true
    writeOk := fun _ => false
    execOk := fun _ => true }

/-- C1 counterexample: a bundle whose packaged-data store does contain the
target resource at relative path "2ch.py" under package "gallery_dl.extractor"
(the fetch returns Some), yet with zero bytes of content; running the shim
leaves the registry without "gallery_dl.extractor.2ch", so the claim as stated
fails at this concrete input. -/
theorem rthook_empty_resource_counterexample :
    emptyResEnv.getData "gallery_dl.extractor" "2ch.py" = some [] ∧
    rthook_run emptyResEnv st0 = (st0, none) ∧
    lookupS (rthook_run emptyResEnv st0).1.modules "gallery_dl.extractor.2ch"
      = none := by
  refine ⟨by decide, by decide, by decide⟩

/-- C1 (amended: the bundled resource must have non-empty content, and the
materialize/load steps must succeed): for every bundle whose packaged-data
store contains the target resource "2ch.py" under "gallery_dl.extractor" with
non-empty bytes, running the shim invocation
_preload_extractor("gallery_dl.extractor.2ch", "2ch.py") raises nothing and
leaves the dotted name "gallery_dl.extractor.2ch" bound in sys.modules to a
module whose executed source content equals the bundled resource bytes
exactly. -/
theorem rthook_registers_module (env : Env) (st : PState) (data : Bytes)
    (hget : env.getData "gallery_dl.extractor" "2ch.py" = some data)
    (hne : data ≠ [])
    (hmk : ∀ p, env.makedirsOk p = true)
    (hwr : ∀ p, env.writeOk p = true)
    (hex : ∀ b, env.execOk b = true) :
    (rthook_run env st).2 = none ∧
    lookupS (rthook_run env st).1.modules "gallery_dl.extractor.2ch" =
      some ⟨"gallery_dl.extractor.2ch", data⟩ := by
  have hne' : data.isEmpty = false := by
    cases data with
    | nil => exact absurd rfl hne
    | cons a l => rfl
  have hpy : ".py".data.isSuffixOf ("2ch.py" : String).data = true := by decide
  unfold rthook_run
  rw [preload_success_run env st "gallery_dl.extractor.2ch" "2ch.py" data hget
    hne' hpy hmk hwr hex]
  exact ⟨rfl, lookupS_setEntry _ _ _⟩

/-- Witness for C1 (amended) at a concrete bundle. -/
theorem rthook_registers_module_witness :
    (rthook_run okEnv st0).2 = none ∧
    lookupS (rthook_run okEnv st0).1.modules "gallery_dl.extractor.2ch" =
      some ⟨"gallery_dl.extractor.2ch", [104, 105]⟩ :=
  rthook_registers_module okEnv st0 [104, 105] (by decide) (by decide)
    (fun _ => rfl) (fun _ => rfl) (fun _ => rfl)

/-- C2: when the packaged-data store does not contain the target resource (the
fetch step returns nothing), the shim completes without raising, performs no
filesystem write, and leaves sys.modules unchanged: the whole process state is
returned untouched. -/
theorem preload_missing_resource_noop (env : Env) (st : PState)
    (modname relpath : String)
    (hget : env.getData "gallery_dl.extractor" relpath = none) :
    _preload_extractor env st modname relpath = (st, none) := by
  simp [_preload_extractor, hget]

/-- Witness for C2 at a concrete bundle with no resource. -/
theorem preload_missing_resource_noop_witness :
    _preload_extractor noResEnv st0 "gallery_dl.extractor.2ch" "2ch.py"
      = (st0, none) :=
  preload_missing_resource_noop noResEnv st0 "gallery_dl.extractor.2ch"
    "2ch.py" rfl

/-- C8: when the fetch step returns the resource as an empty byte string, the
shim behaves exactly as for a missing resource, returning immediately with no
file written and no registration, because the guard tests the truthiness of
the fetched data. -/
theorem preload_empty_resource_noop (env : Env) (st : PState)
    (modname relpath : String)
    (hget : env.getData "gallery_dl.extractor" relpath = some []) :
    _preload_extractor env st modname relpath = (st, none) := by
  simp [_preload_extractor, hget]

/-- Witness for C8 at a concrete bundle with a zero-byte resource. -/
theorem preload_empty_resource_noop_witness :
    _preload_extractor emptyResEnv st0 "gallery_dl.extractor.2ch" "2ch.py"
      = (st0, none) :=
  preload_empty_resource_noop emptyResEnv st0 "gallery_dl.extractor.2ch"
    "2ch.py" (by decide)

/-- C9: registration is atomic with respect to failure: whenever the shim run
reports an exception (any of the directory creation, file write, spec
construction, assertion or module execution steps failed), the sys.modules
registry of the resulting state is exactly the initial one; no
partially-initialized module is ever registered. -/
theorem preload_error_modules_unchanged (env : Env) (st : PState)
    (modname relpath : String)
    (herr : (_preload_extractor env st modname relpath).2 ≠ none) :
    (_preload_extractor env st modname relpath).1.modules = st.modules := by
  rcases preload_cases env st modname relpath
      (_preload_extractor env st modname relpath) rfl with h | h
  · exact h
  · exact absurd h herr

/-- Witness for C9 at a concrete failing run (directory creation fails). -/
theorem preload_error_modules_unchanged_witness :
    (_preload_extractor mkdirFailEnv st0 "gallery_dl.extractor.2ch"
      "2ch.py").1.modules = st0.modules :=
  preload_error_modules_unchanged mkdirFailEnv st0 "gallery_dl.extractor.2ch"
    "2ch.py" (by decide)

/-- C10: for every invocation whose relative path ends in ".py", the module
specification built from the destination path is non-None and carries a
non-None loader, so neither the None-spec failure nor the assertion guarding
the load step can be the outcome of the run, whatever the environment. -/
theorem preload_spec_assertion_safe (env : Env) (st : PState)
    (modname relpath : String)
    (hpy : ".py".data.isSuffixOf relpath.data = true) :
    spec_from_file_location modname (shimDst env relpath)
        = some ⟨modname, shimDst env relpath, some (shimDst env relpath)⟩ ∧
    (_preload_extractor env st modname relpath).2
        ≠ some ShimError.moduleFromSpecFailed ∧
    (_preload_extractor env st modname relpath).2
        ≠ some ShimError.assertionFailed := by
  refine ⟨spec_from_file_location_py _ _ (isSuffixOf_path_join _ _ hpy), ?_, ?_⟩
  · exact (preload_pyspec_cases env st modname relpath
      (_preload_extractor env st modname relpath) rfl hpy).1
  · exact (preload_pyspec_cases env st modname relpath
      (_preload_extractor env st modname relpath) rfl hpy).2

/-- Witness for C10 at the concrete relative path "2ch.py". -/
theorem preload_spec_assertion_safe_witness :
    spec_from_file_location "gallery_dl.extractor.2ch" (shimDst okEnv "2ch.py")
        = some ⟨"gallery_dl.extractor.2ch", shimDst okEnv "2ch.py",
            some (shimDst okEnv "2ch.py")⟩ ∧
    (_preload_extractor okEnv st0 "gallery_dl.extractor.2ch" "2ch.py").2
        ≠ some ShimError.moduleFromSpecFailed ∧
    (_preload_extractor okEnv st0 "gallery_dl.extractor.2ch" "2ch.py").2
        ≠ some ShimError.assertionFailed :=
  preload_spec_assertion_safe okEnv st0 "gallery_dl.extractor.2ch" "2ch.py"
    (by decide)

/-- C4: in every run in which the resource is found (non-empty), a failure of
any later step propagates out of the shim as that step's exception rather
than being caught: failure of the first directory creation, of the second
directory creation, of the file write, of the spec construction, or of the
module execution each makes the run end with the corresponding error. -/
theorem preload_failures_propagate (env : Env) (st : PState)
    (modname relpath : String) (data : Bytes)
    (hget : env.getData "gallery_dl.extractor" relpath = some data)
    (hne : data.isEmpty = false) :
    (env.makedirsOk (shimTmpdir env) = false →
      _preload_extractor env st modname relpath
        = (st, some (ShimError.makedirsFailed (shimTmpdir env)))) ∧
    (env.makedirsOk (shimTmpdir env) = true →
     env.makedirsOk (dirname (shimDst env relpath)) = false →
      _preload_extractor env st modname relpath
        = (st, some (ShimError.makedirsFailed (dirname (shimDst env relpath))))) ∧
    (env.makedirsOk (shimTmpdir env) = true →
     env.makedirsOk (dirname (shimDst env relpath)) = true →
     env.writeOk (shimDst env relpath) = false →
      _preload_extractor env st modname relpath
        = (st, some (ShimError.writeFailed (shimDst env relpath)))) ∧
    (env.makedirsOk (shimTmpdir env) = true →
     env.makedirsOk (dirname (shimDst env relpath)) = true →
     env.writeOk (shimDst env relpath) = true →
     spec_from_file_location modname (shimDst env relpath) = none →
      _preload_extractor env st modname relpath
        = ({ st with fs := setEntry st.fs (shimDst env relpath) data },
           some ShimError.moduleFromSpecFailed)) ∧
    (env.makedirsOk (shimTmpdir env) = true →
     env.makedirsOk (dirname (shimDst env relpath)) = true →
     env.writeOk (shimDst env relpath) = true →
     ".py".data.isSuffixOf relpath.data = true →
     env.execOk data = false →
      _preload_extractor env st modname relpath
        = ({ st with fs := setEntry st.fs (shimDst env relpath) data },
           some (ShimError.execFailed (shimDst env relpath)))) := by
  refine ⟨?_, ?_, ?_, ?_, ?_⟩
  · intro hm1
    simp [_preload_extractor, hget, hne, hm1]
  · intro hm1 hm2
    simp [_preload_extractor, hget, hne, hm1, hm2]
  · intro hm1 hm2 hw
    simp [_preload_extractor, hget, hne, hm1, hm2, hw]
  · intro hm1 hm2 hw hspec
    simp [_preload_extractor, hget, hne, hm1, hm2, hw, hspec]
  · intro hm1 hm2 hw hpy hex
    have hspec : spec_from_file_location modname (shimDst env relpath) =
        some ⟨modname, shimDst env relpath, some (shimDst env relpath)⟩ :=
      spec_from_file_location_py _ _ (isSuffixOf_path_join _ _ hpy)
    simp [_preload_extractor, hget, hne, hm1, hm2, hw, hspec, lookupS_setEntry,
      hex]

/-- Witness for C4 at a concrete run where the file write fails. -/
theorem preload_failures_propagate_witness :
    _preload_extractor writeFailEnv st0 "gallery_dl.extractor.2ch" "2ch.py"
      = (st0, some (ShimError.writeFailed (shimDst writeFailEnv "2ch.py"))) :=
  (preload_failures_propagate writeFailEnv st0 "gallery_dl.extractor.2ch"
    "2ch.py" [104, 105] (by decide) (by decide)).2.2.1 rfl rfl rfl

/-- C5: invoking the shim twice in the same process with the same bundle
contents is idempotent: the second invocation reproduces exactly the state of
the first (same temporary file with the same bytes, same module registered
under the target dotted name) and reports the same outcome, so after a
successful first run the second succeeds without raising. -/
theorem preload_idempotent (env : Env) (st : PState)
    (modname relpath : String) :
    _preload_extractor env
        (_preload_extractor env st modname relpath).1 modname relpath
      = _preload_extractor env st modname relpath := by
  cases hE : _preload_extractor env st modname relpath with
  | mk st1 err => exact preload_step env st modname relpath st1 err hE

/-!
Build-time declarator hook-gallery_dl.py. The wrapped library's installed
state is abstracted as the list of dotted names of all importable modules and
as the installed file tree; the two PyInstaller helpers are modelled from
their documented contracts over that abstraction.
-/

/-- Model of PyInstaller's `collect_submodules(package)` over the dotted
names of all importable modules of the installation: it yields the package
itself and every importable submodule recursively below it, in the order the
installation enumerates them. -/
def collect_submodules (installed : List String) (pkg : String) : List String :=
  installed.filter (fun m => m = pkg || (pkg ++ ".").data.isPrefixOf m.data)

/-- The submodule relation the spec speaks about: a dotted name lies under a
package when it is the package itself or the package name followed by a dot
is a prefix of it. -/
def submoduleUnder (pkg m : String) : Prop :=
  m = pkg ∨ (pkg ++ ".").data <+: m.data

/-- Shallow embedding of the `hiddenimports` binding (hook-gallery_dl.py,
lines 4-9): the concatenation, in the written order, of the submodule
enumerations of the four plugin packages. -/
def hiddenimports (installed : List String) : List String :=
  collect_submodules installed "gallery_dl.extractor"
    ++ collect_submodules installed "gallery_dl.downloader"
    ++ collect_submodules installed "gallery_dl.postprocessor"
    ++ collect_submodules installed "gallery_dl.output"

/-- File paths inside a package tree, as segment lists: the directories on
the way down, then the filename. -/
abbrev SegPath := List String

/-- Does a relative path name a Python source file. -/
def isPyName (p : SegPath) : Bool := ".py".data.isSuffixOf (p.getLastD "").data

/-- Model of PyInstaller's `collect_data_files(package, include_py_files)`:
walk every file of the package's installed tree; unless include_py_files is
set, Python source files are excluded; every collected file contributes the
pair of its absolute source path and its destination directory, which is the
package name followed by the file's relative directory — this is how the
freezing tool preserves the relative directory structure. -/
def collect_data_files (pkgRoot : SegPath) (pkg : String)
    (include_py_files : Bool) (tree : List (SegPath × Bytes)) :
    List (SegPath × SegPath) :=
  (if include_py_files then tree
   else tree.filter (fun e => !isPyName e.1)).map
    (fun e => (pkgRoot ++ e.1, pkg :: e.1.dropLast))

/-- Shallow embedding of the `datas` binding (hook-gallery_dl.py, line 11):
`collect_data_files("gallery_dl", include_py_files=True)`. -/
def datas (pkgRoot : SegPath) (tree : List (SegPath × Bytes)) :
    List (SegPath × SegPath) :=
  collect_data_files pkgRoot "gallery_dl" true tree

/-- The installed files of the library as an absolute-path filesystem. -/
def installedFS (pkgRoot : SegPath) (tree : List (SegPath × Bytes)) :
    List (SegPath × Bytes) :=
  tree.map (fun e => (pkgRoot ++ e.1, e.2))

/-- Copying a data-file manifest: each (source path, destination directory)
pair copies the bytes found at the source path into the destination
directory under the source's filename. -/
def copyManifest (fs : List (SegPath × Bytes))
    (manifest : List (SegPath × SegPath)) : List (SegPath × Bytes) :=
  manifest.filterMap (fun e =>
    (lookupS fs e.1).map (fun c => (e.2 ++ [e.1.getLastD ""], c)))

theorem dropLast_append_getLastD {α : Type} (l : List α) (d : α) (h : l ≠ []) :
    l.dropLast ++ [l.getLastD d] = l := by
  rw [List.getLastD_eq_getLast?, List.getLast?_eq_getLast l h, Option.getD_some]
  exact List.dropLast_append_getLast h

theorem getLastD_append {α : Type} (l₁ l₂ : List α) (d : α) (h : l₂ ≠ []) :
    (l₁ ++ l₂).getLastD d = l₂.getLastD d := by
  rw [List.getLastD_eq_getLast?, List.getLastD_eq_getLast?,
    List.getLast?_append_of_ne_nil l₁ h]

theorem lookupS_installedFS (pkgRoot : SegPath) (tree : List (SegPath × Bytes))
    (hnd : (tree.map Prod.fst).Nodup) (r : SegPath) (c : Bytes)
    (hmem : (r, c) ∈ tree) :
    lookupS (installedFS pkgRoot tree) (pkgRoot ++ r) = some c := by
  induction tree with
  | nil => cases hmem
  | cons e rest ih =>
    rcases e with ⟨q, d⟩
    simp only [List.map_cons, List.nodup_cons] at hnd
    simp only [installedFS, List.map_cons, lookupS]
    rcases List.mem_cons.mp hmem with heq | hmem'
    · cases heq
      simp
    · have hqr : q ≠ r := by
        intro hq
        exact hnd.1 (hq ▸ (List.mem_map.mpr ⟨(r, c), hmem', rfl⟩))
      have : pkgRoot ++ q ≠ pkgRoot ++ r := fun hap =>
        hqr (List.append_cancel_left hap)
      rw [if_neg this]
      exact ih hnd.2 hmem'

theorem copyManifest_over (fs : List (SegPath × Bytes)) (pkgRoot : SegPath)
    (pkg : String) (sub : List (SegPath × Bytes))
    (hlk : ∀ e ∈ sub, lookupS fs (pkgRoot ++ e.1) = some e.2)
    (hne : ∀ e ∈ sub, e.1 ≠ []) :
    copyManifest fs (sub.map (fun e => (pkgRoot ++ e.1, pkg :: e.1.dropLast)))
      = sub.map (fun e => (pkg :: e.1, e.2)) := by
  induction sub with
  | nil => rfl
  | cons e rest ih =>
    simp only [List.map_cons, copyManifest, List.filterMap_cons]
    rw [hlk e (List.mem_cons_self e rest)]
    have h1 : (pkgRoot ++ e.1).getLastD "" = e.1.getLastD "" :=
      getLastD_append pkgRoot e.1 "" (hne e (List.mem_cons_self e rest))
    have h2 : e.1.dropLast ++ [e.1.getLastD ""] = e.1 :=
      dropLast_append_getLastD e.1 "" (hne e (List.mem_cons_self e rest))
    have hrest := ih (fun x hx => hlk x (List.mem_cons_of_mem e hx))
      (fun x hx => hne x (List.mem_cons_of_mem e hx))
    simp only [copyManifest] at hrest
    simp only [Option.map_some', h1, List.cons_append, h2]
    rw [hrest]

/-- C3: the hidden-import sequence is exactly the concatenation, in the fixed
written order, of the submodule enumerations of gallery_dl.extractor,
gallery_dl.downloader, gallery_dl.postprocessor and gallery_dl.output; for
every package the enumeration contains exactly the importable modules lying
under that package — every importable submodule of the package appears and
no name outside the package does. -/
theorem hiddenimports_exact (installed : List String) :
    (hiddenimports installed
      = collect_submodules installed "gallery_dl.extractor"
        ++ collect_submodules installed "gallery_dl.downloader"
        ++ collect_submodules installed "gallery_dl.postprocessor"
        ++ collect_submodules installed "gallery_dl.output") ∧
    (∀ pkg m, m ∈ collect_submodules installed pkg ↔
      m ∈ installed ∧ submoduleUnder pkg m) ∧
    (∀ m, m ∈ hiddenimports installed ↔
      m ∈ installed ∧
        (submoduleUnder "gallery_dl.extractor" m ∨
         submoduleUnder "gallery_dl.downloader" m ∨
         submoduleUnder "gallery_dl.postprocessor" m ∨
         submoduleUnder "gallery_dl.output" m)) := by
  have hmem : ∀ pkg m, m ∈ collect_submodules installed pkg ↔
      m ∈ installed ∧ submoduleUnder pkg m := by
    intro pkg m
    simp [collect_submodules, List.mem_filter, submoduleUnder,
      List.isPrefixOf_iff_prefix]
  refine ⟨rfl, hmem, fun m => ?_⟩
  simp only [hiddenimports, List.mem_append, hmem]
  tauto

/-- C6: the data-file manifest built with include_py_files=True enumerates
every file of the wrapped library's installed tree — Python source files
included — as (source, destination-directory) pairs preserving the relative
directory structure, so that copying each source into its destination under
its own filename reproduces, under the package name, a tree byte-identical to
the installed tree. -/
theorem datas_reproduce_tree (pkgRoot : SegPath) (tree : List (SegPath × Bytes))
    (hnd : (tree.map Prod.fst).Nodup)
    (hne : ∀ e ∈ tree, e.1 ≠ []) :
    (∀ e ∈ tree, (pkgRoot ++ e.1, "gallery_dl" :: e.1.dropLast)
      ∈ datas pkgRoot tree) ∧
    copyManifest (installedFS pkgRoot tree) (datas pkgRoot tree)
      = tree.map (fun e => ("gallery_dl" :: e.1, e.2)) := by
  constructor
  · intro e he
    exact List.mem_map.mpr ⟨e, he, rfl⟩
  · show copyManifest (installedFS pkgRoot tree)
      (tree.map (fun e => (pkgRoot ++ e.1, "gallery_dl" :: e.1.dropLast))) = _
    exact copyManifest_over (installedFS pkgRoot tree) pkgRoot "gallery_dl"
      tree
      (fun e he => lookupS_installedFS pkgRoot tree hnd e.1 e.2 he)
      hne

/-- Witness for C6 at a concrete two-file tree with a nested directory and a
Python source file. -/
theorem datas_reproduce_tree_witness :
    (∀ e ∈ [(["extractor", "2ch.py"], [104]),
            (["version.py"], [118, 49])],
      ((["usr", "lib", "gallery_dl"] : SegPath) ++ e.1,
       "gallery_dl" :: e.1.dropLast)
        ∈ datas ["usr", "lib", "gallery_dl"]
            [(["extractor", "2ch.py"], [104]), (["version.py"], [118, 49])]) ∧
    copyManifest
        (installedFS ["usr", "lib", "gallery_dl"]
          [(["extractor", "2ch.py"], [104]), (["version.py"], [118, 49])])
        (datas ["usr", "lib", "gallery_dl"]
          [(["extractor", "2ch.py"], [104]), (["version.py"], [118, 49])])
      = [(["gallery_dl", "extractor", "2ch.py"], [104]),
         (["gallery_dl", "version.py"], [118, 49])] :=
  datas_reproduce_tree ["usr", "lib", "gallery_dl"]
    [(["extractor", "2ch.py"], [104]), (["version.py"], [118, 49])]
    (by decide) (by decide)

/-- An installed gallery_dl distribution as the build-time helpers see it:
the dotted names of all importable modules, the root of the installed
package tree, and the package file tree. -/
structure Installation where
  modules : List String
  pkgRoot : SegPath
  tree : List (SegPath × Bytes)

/-- Exception raised by the PyInstaller helper calls at build time. -/
inductive HookError where
  | packageNotFound : String → HookError
deriving DecidableEq, Repr

/-- Model of `collect_submodules` on a possibly-missing distribution: when
the package cannot be imported, current PyInstaller logs a warning and yields
the empty sequence — the weakest documented behavior is chosen deliberately,
so nothing below relies on this call raising. -/
def collect_submodules_dist (inst : Option Installation) (pkg : String) :
    List String :=
  match inst with
  | none => []
  | some i => collect_submodules i.modules pkg

/-- Model of `collect_data_files` on a possibly-missing distribution: the
helper first resolves the package location (get_package_paths) and raises
when the package is not importable. -/
def collect_data_files_dist (inst : Option Installation) (pkg : String)
    (include_py_files : Bool) :
    Except HookError (List (SegPath × SegPath)) :=
  match inst with
  | none => Except.error (HookError.packageNotFound pkg)
  | some i => Except.ok (collect_data_files i.pkgRoot pkg include_py_files i.tree)

/-- Evaluation of the declarator module hook-gallery_dl.py from top to
bottom: bind `hiddenimports` (lines 4-9), then `datas` (line 11). The module
installs no exception handler, so an exception raised by either binding
aborts the whole evaluation. -/
def hook_gallery_dl (inst : Option Installation) :
    Except HookError (List String × List (SegPath × SegPath)) :=
  let hi := collect_submodules_dist inst "gallery_dl.extractor"
    ++ collect_submodules_dist inst "gallery_dl.downloader"
    ++ collect_submodules_dist inst "gallery_dl.postprocessor"
    ++ collect_submodules_dist inst "gallery_dl.output"
  match collect_data_files_dist inst "gallery_dl" true with
  | Except.error e => Except.error e
  | Except.ok ds => Except.ok (hi, ds)

/-- C7: when the wrapped library is not importable at the time the declarator
module is evaluated, the evaluation propagates an exception — the build
stops — and never silently returns manifests; when the library is importable
the evaluation returns the two manifests. -/
theorem hook_fails_without_library :
    hook_gallery_dl none
      = Except.error (HookError.packageNotFound "gallery_dl") ∧
    ∀ i : Installation, hook_gallery_dl (some i)
      = Except.ok (hiddenimports i.modules, datas i.pkgRoot i.tree) :=
  ⟨rfl, fun _ => rfl⟩

end GalleryDL
